import Mathlib

/-!
Verification of the FishTracker catch-log view, a shallow embedding of
src/project/src/components/FishTracker.jsx.

Records and form values are structures with rational numeric fields and
Option for optional fields.  The four derived statistics, the table column
helpers (length sorter/renderer), and the two asynchronous handlers
(loadCatches and handleAddCatch) become pure Lean functions; the storage
collaborator's behaviour at each await point is an explicit outcome
parameter (CallOutcome), so one evaluation of a handler corresponds to one
complete run of the JS async function for a fixed collaborator response.
Notifications raised via antd message.* and calls issued to the Fish entity
are returned explicitly as lists.
-/

/-- A catch record as held in the component's `catches` state (shape of the
objects returned by the storage collaborator and consumed by the table and
the statistics).  `weight` is `Option ℚ` so that the JS guards
`fish.weight || 0` are modelled faithfully; likewise `length`. -/
structure CatchRecord where
  species : String
  weight : Option ℚ
  length : Option ℚ
  location : String
  datecaught : String
  timeOfDay : Option String
  weather : Option String
  bait : Option String
  notes : Option String
  deriving Repr, DecidableEq

/-- JS `fish.weight || 0`: an absent weight reads as 0 (a present weight of
0 is falsy in JS and also yields 0, which `Option.getD 0` matches). -/
def weightOf (r : CatchRecord) : ℚ := r.weight.getD 0

/-- JS `a.length || 0` in the length-column sorter. -/
def lengthOf (r : CatchRecord) : ℚ := r.length.getD 0

/-- The date-picker value object (a dayjs date): a plain calendar date. -/
structure DateValue where
  year : ℕ
  month : ℕ
  day : ℕ
  deriving Repr, DecidableEq

/-- Two-digit zero padding, as used by dayjs format tokens MM and DD. -/
def pad2 (n : ℕ) : String := if n < 10 then "0" ++ toString n else toString n

/-- Four-digit zero padding, as used by the dayjs format token YYYY. -/
def pad4 (n : ℕ) : String :=
  if n < 10 then "000" ++ toString n
  else if n < 100 then "00" ++ toString n
  else if n < 1000 then "0" ++ toString n
  else toString n

/-- dayjs `.format('YYYY-MM-DD')` applied to a date-picker value. -/
def formatYMD (d : DateValue) : String :=
  pad4 d.year ++ "-" ++ pad2 d.month ++ "-" ++ pad2 d.day

/-- The `values` object antd's Form passes to `onFinish`: every required
field is present (the form blocks submission otherwise), optional fields
may be absent. -/
structure FormValues where
  species : String
  weight : ℚ
  length : Option ℚ
  location : String
  datecaught : DateValue
  bait : Option String
  timeOfDay : Option String
  weather : Option String
  notes : Option String
  deriving Repr, DecidableEq

/-- The payload `catchData` sent to `Fish.create`: the spread of `values`
with `datecaught` replaced by its YYYY-MM-DD serialization. -/
structure CatchPayload where
  species : String
  weight : ℚ
  length : Option ℚ
  location : String
  datecaught : String
  bait : Option String
  timeOfDay : Option String
  weather : Option String
  notes : Option String
  deriving Repr, DecidableEq

/-- `{ ...values, datecaught: values.datecaught.format('YYYY-MM-DD') }`. -/
def buildPayload (values : FormValues) : CatchPayload :=
  { species := values.species
    weight := values.weight
    length := values.length
    location := values.location
    datecaught := formatYMD values.datecaught
    bait := values.bait
    timeOfDay := values.timeOfDay
    weather := values.weather
    notes := values.notes }

/-- The in-flight antd form field values; `FormState.empty` is the state
after `form.resetFields()`. -/
structure FormState where
  species : Option String
  weight : Option ℚ
  length : Option ℚ
  location : Option String
  datecaught : Option DateValue
  bait : Option String
  timeOfDay : Option String
  weather : Option String
  notes : Option String
  deriving Repr, DecidableEq

/-- The form after `form.resetFields()`: every field cleared. -/
def FormState.empty : FormState :=
  ⟨none, none, none, none, none, none, none, none, none⟩

/-- The component's reactive state: `catches`, `isModalOpen`, the form
instance's field values, and `loading`. -/
structure ViewState where
  catches : List CatchRecord
  isModalOpen : Bool
  form : FormState
  loading : Bool
  deriving Repr, DecidableEq

/-- A user-facing antd message (`message.error` / `message.success`). -/
inductive Notification where
  | errorMsg (text : String)
  | successMsg (text : String)
  deriving Repr, DecidableEq

/-- A call issued to the Fish storage collaborator. -/
inductive Call where
  | createCall (payload : CatchPayload)
  | listCall
  deriving Repr, DecidableEq

/-- Outcome of one awaited collaborator call: the promise either rejects
(throws at the await) or resolves with `{ success, data }`. -/
inductive CallOutcome (α : Type) where
  | throws
  | resolves (success : Bool) (data : α)
  deriving Repr, DecidableEq

/-- `loadCatches` from the source, for a fixed outcome of `Fish.list()`:
try { setLoading(true); result = await Fish.list();
      if (result.success) setCatches(result.data) }
catch { message.error('Failed to load fish catches') }
finally { setLoading(false) }.
Returns the new state and the notifications raised. -/
def loadCatches (s : ViewState) (outcome : CallOutcome (List CatchRecord)) :
    ViewState × List Notification :=
  let s1 : ViewState := { s with loading := true }
  match outcome with
  | CallOutcome.throws =>
      ({ s1 with loading := false },
        [Notification.errorMsg "Failed to load fish catches"])
  | CallOutcome.resolves success data =>
      let s2 := if success then { s1 with catches := data } else s1
      ({ s2 with loading := false }, [])

/-- `handleAddCatch` from the source, for fixed outcomes of `Fish.create`
and of the `Fish.list()` call made by the nested `loadCatches()` (the list
outcome is only consulted when the create resolves with success).  Returns
the new state, the notifications raised (in order), and the collaborator
calls issued (in order). -/
def handleAddCatch (s : ViewState) (values : FormValues)
    (createOutcome : CallOutcome Unit)
    (listOutcome : CallOutcome (List CatchRecord)) :
    ViewState × List Notification × List Call :=
  let catchData := buildPayload values
  match createOutcome with
  | CallOutcome.throws =>
      (s, [Notification.errorMsg "Failed to add fish catch"],
        [Call.createCall catchData])
  | CallOutcome.resolves success _ =>
      if success then
        let s1 : ViewState := { s with isModalOpen := false, form := FormState.empty }
        let res := loadCatches s1 listOutcome
        (res.1,
          Notification.successMsg "Fish catch added successfully!" :: res.2,
          [Call.createCall catchData, Call.listCall])
      else
        (s, [], [Call.createCall catchData])

/-- `const totalCatches = catches.length`. -/
def totalCatches (l : List CatchRecord) : ℕ := l.length

/-- `catches.reduce((sum, fish) => sum + (fish.weight || 0), 0)`. -/
def totalWeight (l : List CatchRecord) : ℚ :=
  l.foldl (fun sum fish => sum + weightOf fish) 0

/-- The `.weight || 0` read on the reduce accumulator of `biggestFish`:
`none` stands for the initial sentinel object `{ weight: 0 }`. -/
def maxWeight : Option CatchRecord → ℚ
  | none => 0
  | some r => weightOf r

/-- One step of the `biggestFish` reduce:
`(max, fish) => (fish.weight || 0) > (max.weight || 0) ? fish : max`. -/
def bfStep (acc : Option CatchRecord) (fish : CatchRecord) : Option CatchRecord :=
  if maxWeight acc < weightOf fish then some fish else acc

/-- `catches.reduce(bfStep, { weight: 0 })`; `none` is the sentinel. -/
def biggestFish (l : List CatchRecord) : Option CatchRecord :=
  l.foldl bfStep none

/-- The Biggest Fish statistic card: `value = biggestFish.weight || 0`,
formatter `value > 0 ? value + ' lbs' : 'None yet'`. -/
def biggestFishDisplay (l : List CatchRecord) : String :=
  let value := maxWeight (biggestFish l)
  if 0 < value then toString value ++ " lbs" else "None yet"

/-- A JS value that is either a number or a string, distinguishing
`averageWeight`'s two branches (`toFixed` returns a string; the other
branch is the number 0). -/
inductive JsValue where
  | num (q : ℚ)
  | str (text : String)
  deriving Repr, DecidableEq

/-- JS `x.toFixed(2)`: round to the nearest hundredth (half away from
zero on the positive side) and print with exactly two decimals. -/
def toFixed2 (q : ℚ) : String :=
  (if ⌊q * 100 + 1 / 2⌋ < 0 then "-" else "") ++
    toString ((⌊q * 100 + 1 / 2⌋).natAbs / 100) ++ "." ++
    pad2 ((⌊q * 100 + 1 / 2⌋).natAbs % 100)

/-- The exact rational value denoted by `toFixed2 q`. -/
def round2 (q : ℚ) : ℚ := ((⌊q * 100 + 1 / 2⌋ : ℤ) : ℚ) / 100

/-- `totalCatches > 0 ? (totalWeight / totalCatches).toFixed(2) : 0`. -/
def averageWeight (l : List CatchRecord) : JsValue :=
  if 0 < totalCatches l then
    JsValue.str (toFixed2 (totalWeight l / (totalCatches l : ℚ)))
  else JsValue.num 0

/-- The length-column sorter `(a, b) => (a.length || 0) - (b.length || 0)`;
always a well-defined rational, never NaN. -/
def lengthSorter (a b : CatchRecord) : ℚ := lengthOf a - lengthOf b

/-- The length-column renderer:
`(length) => length ? length + '"' : 'N/A'` (0 and absent are both falsy). -/
def renderLength : Option ℚ → String
  | none => "N/A"
  | some q => if q = 0 then "N/A" else toString q ++ "\""

/-- Concrete record used in witnesses: a 3 lb bass. -/
def recA : CatchRecord :=
  { species := "Bass", weight := some 3, length := some 12,
    location := "Lake Mead", datecaught := "2024-07-04",
    timeOfDay := some "morning", weather := some "sunny",
    bait := some "worm", notes := none }

/-- Concrete record used in witnesses: a 2 lb trout with no length. -/
def recB : CatchRecord :=
  { species := "Trout", weight := some 2, length := none,
    location := "Smith River", datecaught := "2024-06-01",
    timeOfDay := none, weather := none, bait := none, notes := none }

/-- Concrete record with weight 0, for the sentinel counterexample. -/
def recZero : CatchRecord :=
  { species := "Minnow", weight := some 0, length := none,
    location := "Pond", datecaught := "2024-05-05",
    timeOfDay := none, weather := none, bait := none, notes := none }

/-- Concrete record with no length, for the length-column witness. -/
def recNoLen : CatchRecord :=
  { species := "Pike", weight := some 5, length := none,
    location := "Bay", datecaught := "2024-04-04",
    timeOfDay := none, weather := none, bait := none, notes := none }

/-- The calendar date 2024-07-04 as a date-picker value. -/
def july4 : DateValue := ⟨2024, 7, 4⟩

/-- Concrete submitted form values used in witnesses. -/
def v0 : FormValues :=
  { species := "Bass", weight := 3, length := none, location := "Lake Mead",
    datecaught := july4, bait := none, timeOfDay := none, weather := none,
    notes := none }

/-- Concrete view state (modal open, empty list) used in witnesses. -/
def s0 : ViewState :=
  { catches := [], isModalOpen := true, form := FormState.empty,
    loading := false }

example : formatYMD july4 = "2024-07-04" := by decide
example : weightOf recZero = 0 := by decide
example : biggestFish [recZero] = none := by decide
example : biggestFishDisplay [recZero] = "None yet" := by decide
example : averageWeight [recA, recB] = JsValue.str "2.50" := by
  have htw : totalWeight [recA, recB] = 5 := by
    simp [totalWeight, weightOf, recA, recB]
    norm_num
  have h2 : averageWeight [recA, recB] = JsValue.str (toFixed2 (5 / 2)) := by
    unfold averageWeight
    rw [if_pos (by decide : 0 < totalCatches [recA, recB])]
    rw [htw]
    norm_num [totalCatches]
  rw [h2]
  simp only [toFixed2]
  rw [show ⌊(5 : ℚ) / 2 * 100 + 1 / 2⌋ = 250 by norm_num]
  decide
example : (loadCatches s0 (CallOutcome.resolves false [])).2 = [] := by decide

/-! ### Helper lemmas -/

lemma totalWeight_foldl_aux :
    ∀ (l : List CatchRecord) (a : ℚ),
      l.foldl (fun sum fish => sum + weightOf fish) a = a + (l.map weightOf).sum := by
  intro l
  induction l with
  | nil => intro a; simp
  | cons f t ih =>
      intro a
      simp only [List.foldl_cons, List.map_cons, List.sum_cons]
      rw [ih, add_assoc]

lemma totalWeight_eq_sum (l : List CatchRecord) :
    totalWeight l = (l.map weightOf).sum := by
  unfold totalWeight
  rw [totalWeight_foldl_aux]
  exact zero_add _

lemma maxWeight_bfStep (acc : Option CatchRecord) (f : CatchRecord) :
    maxWeight (bfStep acc f) = max (maxWeight acc) (weightOf f) := by
  unfold bfStep
  by_cases h : maxWeight acc < weightOf f
  · rw [if_pos h]
    exact (max_eq_right h.le).symm
  · rw [if_neg h]
    exact (max_eq_left (not_lt.mp h)).symm

lemma foldl_bfStep_maxWeight :
    ∀ (l : List CatchRecord) (acc : Option CatchRecord),
      maxWeight (l.foldl bfStep acc) =
        l.foldl (fun m r => max m (weightOf r)) (maxWeight acc) := by
  intro l
  induction l with
  | nil => intro acc; rfl
  | cons f t ih =>
      intro acc
      simp only [List.foldl_cons]
      rw [ih, maxWeight_bfStep]

lemma foldl_max_ge_init :
    ∀ (l : List CatchRecord) (a : ℚ),
      a ≤ l.foldl (fun m r => max m (weightOf r)) a := by
  intro l
  induction l with
  | nil => intro a; exact le_refl a
  | cons f t ih =>
      intro a
      simp only [List.foldl_cons]
      exact le_trans (le_max_left a (weightOf f)) (ih _)

lemma foldl_max_ge_mem (r : CatchRecord) :
    ∀ (l : List CatchRecord) (a : ℚ), r ∈ l →
      weightOf r ≤ l.foldl (fun m x => max m (weightOf x)) a := by
  intro l
  induction l with
  | nil => intro a h; cases h
  | cons f t ih =>
      intro a h
      simp only [List.foldl_cons]
      rcases List.mem_cons.mp h with h1 | h2
      · subst h1
        exact le_trans (le_max_right a (weightOf r)) (foldl_max_ge_init t _)
      · exact ih _ h2

lemma foldl_bfStep_mem :
    ∀ (l : List CatchRecord) (acc : Option CatchRecord),
      l.foldl bfStep acc = acc ∨ ∃ r ∈ l, l.foldl bfStep acc = some r := by
  intro l
  induction l with
  | nil => intro acc; exact Or.inl rfl
  | cons f t ih =>
      intro acc
      simp only [List.foldl_cons]
      rcases ih (bfStep acc f) with h | ⟨r, hr, he⟩
      · rw [h]
        unfold bfStep
        by_cases hc : maxWeight acc < weightOf f
        · exact Or.inr ⟨f, List.mem_cons_self f t, by rw [if_pos hc]⟩
        · exact Or.inl (by rw [if_neg hc])
      · exact Or.inr ⟨r, List.mem_cons_of_mem f hr, he⟩

lemma foldl_bfStep_none :
    ∀ (l : List CatchRecord), (∀ r ∈ l, weightOf r ≤ 0) →
      l.foldl bfStep none = none := by
  intro l
  induction l with
  | nil => intro _; rfl
  | cons f t ih =>
      intro h
      have hf : weightOf f ≤ 0 := h f (List.mem_cons_self f t)
      have hstep : bfStep none f = none := by
        unfold bfStep
        rw [if_neg]
        show ¬ maxWeight none < weightOf f
        have : maxWeight none = 0 := rfl
        rw [this]
        exact not_lt.mpr hf
      simp only [List.foldl_cons, hstep]
      exact ih fun r hr => h r (List.mem_cons_of_mem f hr)

/-! ### Claim theorems -/

/-- Claim C5: `totalWeight` equals the sum of each record's weight with a
missing weight treated as 0, and is invariant under any permutation of the
record sequence. -/
theorem totalWeight_perm_spec (l l2 : List CatchRecord) (h : l.Perm l2) :
    totalWeight l = (l.map weightOf).sum ∧ totalWeight l = totalWeight l2 := by
  refine ⟨totalWeight_eq_sum l, ?_⟩
  rw [totalWeight_eq_sum l, totalWeight_eq_sum l2]
  exact (h.map weightOf).sum_eq

/-- Witness for C5 at a concrete two-element swap. -/
theorem totalWeight_perm_witness :
    totalWeight [recA, recB] = (([recA, recB]).map weightOf).sum ∧
    totalWeight [recA, recB] = totalWeight [recB, recA] :=
  totalWeight_perm_spec [recA, recB] [recB, recA] (List.Perm.swap recB recA [])

/-- Claim C3 counterexample: on the non-empty list `[recZero]` (one record
of weight 0) the `biggestFish` reduce returns the initial sentinel
`{ weight: 0 }` (modelled as `none`) rather than any record of the list,
and the Biggest Fish card falls back to "None yet" even though the list is
non-empty — refuting both that `biggestFish` is always a record taken from
the sequence and that the fallback occurs only on the empty sequence. -/
theorem biggestFish_sentinel_counterexample :
    ([recZero] : List CatchRecord) ≠ [] ∧
    biggestFish [recZero] = none ∧
    (∀ r ∈ ([recZero] : List CatchRecord), biggestFish [recZero] ≠ some r) ∧
    biggestFishDisplay [recZero] = "None yet" := by
  refine ⟨by simp, by decide, ?_, by decide⟩
  intro r hr
  rcases List.mem_singleton.mp hr with h
  subst h
  decide

/-- Claim C3 (amended): whenever some record has positive weight (missing
treated as 0), `biggestFish` is a record of the sequence whose weight is
greater than or equal to every other record's weight; but when every
record's weight is ≤ 0 — in particular on the empty sequence and on any
sequence whose weights are all 0 or missing — `biggestFish` is the sentinel
and the display falls back to "None yet". -/
theorem biggestFish_max_spec (l : List CatchRecord) :
    ((∃ r ∈ l, 0 < weightOf r) →
      ∃ r, biggestFish l = some r ∧ r ∈ l ∧ ∀ r2 ∈ l, weightOf r2 ≤ weightOf r) ∧
    ((∀ r ∈ l, weightOf r ≤ 0) →
      biggestFish l = none ∧ biggestFishDisplay l = "None yet") := by
  constructor
  · rintro ⟨r, hr, hpos⟩
    have hge : weightOf r ≤ maxWeight (biggestFish l) := by
      unfold biggestFish
      rw [foldl_bfStep_maxWeight]
      exact foldl_max_ge_mem r l (maxWeight none) hr
    have hne : biggestFish l ≠ none := by
      intro hn
      rw [hn] at hge
      have h0 : maxWeight none = 0 := rfl
      rw [h0] at hge
      linarith
    rcases foldl_bfStep_mem l none with h | ⟨r0, hr0, he0⟩
    · exact absurd h hne
    · refine ⟨r0, he0, hr0, ?_⟩
      intro r2 hr2
      have h2 : weightOf r2 ≤ maxWeight (biggestFish l) := by
        unfold biggestFish
        rw [foldl_bfStep_maxWeight]
        exact foldl_max_ge_mem r2 l (maxWeight none) hr2
      have h3 : biggestFish l = some r0 := he0
      rw [h3] at h2
      exact h2
  · intro h
    have hn : biggestFish l = none := foldl_bfStep_none l h
    refine ⟨hn, ?_⟩
    unfold biggestFishDisplay
    rw [hn]
    have h0 : maxWeight none = 0 := rfl
    rw [h0]
    simp

/-- Witness for C3 (amended) at the concrete list `[recA, recB]`. -/
theorem biggestFish_max_witness :
    ∃ r, biggestFish [recA, recB] = some r ∧ r ∈ ([recA, recB] : List CatchRecord) ∧
      ∀ r2 ∈ ([recA, recB] : List CatchRecord), weightOf r2 ≤ weightOf r :=
  (biggestFish_max_spec [recA, recB]).1 ⟨recA, by simp, by decide⟩

/-- Claim C10: on any non-empty sequence in which every record's weight is
0 or missing, the `biggestFish` reduce keeps the sentinel `{ weight: 0 }`
(the strict `>` never replaces it) and the Biggest Fish card shows the
"None yet" fallback even though records exist. -/
theorem biggestFish_allZero_sentinel (l : List CatchRecord) (_hne : l ≠ [])
    (h : ∀ r ∈ l, weightOf r = 0) :
    biggestFish l = none ∧ biggestFishDisplay l = "None yet" := by
  have h0 : ∀ r ∈ l, weightOf r ≤ 0 := fun r hr => le_of_eq (h r hr)
  have hn : biggestFish l = none := foldl_bfStep_none l h0
  refine ⟨hn, ?_⟩
  unfold biggestFishDisplay
  rw [hn]
  have hm : maxWeight none = 0 := rfl
  rw [hm]
  simp

/-- Witness for C10 at the concrete non-empty list `[recZero]`. -/
theorem biggestFish_allZero_witness :
    biggestFish [recZero] = none ∧ biggestFishDisplay [recZero] = "None yet" :=
  biggestFish_allZero_sentinel [recZero] (by simp) (by decide)

/-- Claim C4: `averageWeight` is the string `toFixed2` of
`totalWeight / totalCatches` when the list is non-empty, and the literal
number 0 (not a formatted string) when it is empty; `toFixed2` denotes the
value of its argument rounded to two decimal places (`round2 q` times 100
is an integer, it is within 1/200 of `q`, and `toFixed2` cannot tell `q`
from `round2 q`). -/
theorem averageWeight_spec (l : List CatchRecord) :
    (0 < totalCatches l →
      averageWeight l =
        JsValue.str (toFixed2 ((l.map weightOf).sum / (l.length : ℚ)))) ∧
    (l = [] → averageWeight l = JsValue.num 0) ∧
    (∀ q : ℚ, (round2 q * 100).den = 1 ∧ |round2 q - q| ≤ 1 / 200 ∧
      toFixed2 (round2 q) = toFixed2 q) := by
  refine ⟨?_, ?_, ?_⟩
  · intro h
    unfold averageWeight
    rw [if_pos h, totalWeight_eq_sum]
    rfl
  · intro h
    subst h
    rfl
  · intro q
    have h1 : ((⌊q * 100 + 1 / 2⌋ : ℤ) : ℚ) ≤ q * 100 + 1 / 2 := Int.floor_le _
    have h2 : q * 100 + 1 / 2 < ((⌊q * 100 + 1 / 2⌋ : ℤ) : ℚ) + 1 :=
      Int.lt_floor_add_one _
    have hc : round2 q * 100 = ((⌊q * 100 + 1 / 2⌋ : ℤ) : ℚ) := by
      unfold round2
      rw [div_mul_cancel₀]
      norm_num
    refine ⟨?_, ?_, ?_⟩
    · rw [hc]
      exact Rat.den_intCast _
    · unfold round2
      rw [abs_le]
      constructor <;> linarith
    · have hfloor : ⌊round2 q * 100 + 1 / 2⌋ = ⌊q * 100 + 1 / 2⌋ := by
        rw [hc, Int.floor_int_add]
        have : ⌊(1 : ℚ) / 2⌋ = 0 := by norm_num
        rw [this, add_zero]
      unfold toFixed2
      rw [hfloor]

/-- Witness for C4: the non-empty branch at `[recA]` and the empty branch. -/
theorem averageWeight_spec_witness :
    averageWeight [recA] =
      JsValue.str (toFixed2 ((([recA]).map weightOf).sum /
        (([recA] : List CatchRecord).length : ℚ))) ∧
    averageWeight ([] : List CatchRecord) = JsValue.num 0 :=
  ⟨(averageWeight_spec [recA]).1 (by decide), (averageWeight_spec []).2.1 rfl⟩

/-- Claim C2: submitting the form with all required fields present (the
`FormValues` type carries them) while `Fish.create` resolves successfully
issues exactly the call sequence [one create with the transformed payload,
one list re-fetch], closes the modal, and resets every form field —
whatever the outcome of the re-fetch. -/
theorem submit_success_flow (s : ViewState) (values : FormValues)
    (lo : CallOutcome (List CatchRecord)) :
    (handleAddCatch s values (CallOutcome.resolves true ()) lo).2.2 =
      [Call.createCall (buildPayload values), Call.listCall] ∧
    (handleAddCatch s values (CallOutcome.resolves true ()) lo).1.isModalOpen = false ∧
    (handleAddCatch s values (CallOutcome.resolves true ()) lo).1.form = FormState.empty := by
  refine ⟨rfl, ?_, ?_⟩
  · cases lo with
    | throws => rfl
    | resolves success data => cases success <;> rfl
  · cases lo with
    | throws => rfl
    | resolves success data => cases success <;> rfl

/-- Claim C6: on any creation failure — a rejected `Fish.create` or a
`success: false` response — the whole view state is unchanged: in
particular the modal stays as it was (not closed) and every entered form
field keeps its value. -/
theorem submit_failure_preserves (s : ViewState) (values : FormValues)
    (lo : CallOutcome (List CatchRecord)) :
    (handleAddCatch s values CallOutcome.throws lo).1 = s ∧
    (handleAddCatch s values (CallOutcome.resolves false ()) lo).1 = s ∧
    (handleAddCatch s values CallOutcome.throws lo).1.isModalOpen = s.isModalOpen ∧
    (handleAddCatch s values (CallOutcome.resolves false ()) lo).1.form = s.form :=
  ⟨rfl, rfl, rfl, rfl⟩

/-- Claim C7: a failed `loadCatches` — rejected `Fish.list()` or a
`success: false` response — leaves `catches` unchanged, and `loading` is
false after `loadCatches` completes under every outcome. -/
theorem loadCatches_failure_spec (s : ViewState) (d : List CatchRecord) :
    (loadCatches s CallOutcome.throws).1.catches = s.catches ∧
    (loadCatches s (CallOutcome.resolves false d)).1.catches = s.catches ∧
    ∀ o : CallOutcome (List CatchRecord), (loadCatches s o).1.loading = false := by
  refine ⟨rfl, rfl, ?_⟩
  intro o
  cases o with
  | throws => rfl
  | resolves success data => cases success <;> rfl

/-- Claim C1 counterexample: at the concrete state `s0` and form values
`v0`, a `Fish.list()` call resolving `{ success: false }` and a
`Fish.create` call resolving `{ success: false }` both complete with an
empty notification list — an error outcome of each operation that leaves
the user without any notification, refuting the claim. -/
theorem success_false_silent_counterexample :
    (loadCatches s0 (CallOutcome.resolves false [])).2 = [] ∧
    (handleAddCatch s0 v0 (CallOutcome.resolves false ())
      (CallOutcome.resolves true [])).2.1 = [] :=
  ⟨rfl, rfl⟩

/-- Claim C1 (amended): a rejected (thrown) `Fish.list()` or `Fish.create`
call surfaces exactly one user-facing error notification, but a call that
resolves with `success: false` produces no notification at all — that
error outcome is silently ignored by both operations. -/
theorem failure_notification_semantics (s : ViewState) (values : FormValues)
    (lo : CallOutcome (List CatchRecord)) :
    (loadCatches s CallOutcome.throws).2 =
      [Notification.errorMsg "Failed to load fish catches"] ∧
    (handleAddCatch s values CallOutcome.throws lo).2.1 =
      [Notification.errorMsg "Failed to add fish catch"] ∧
    (∀ d : List CatchRecord, (loadCatches s (CallOutcome.resolves false d)).2 = []) ∧
    (handleAddCatch s values (CallOutcome.resolves false ()) lo).2.1 = [] :=
  ⟨rfl, rfl, fun _ => rfl, rfl⟩

/-- Claim C8: a date-picker value holding the calendar date 2024-07-04 is
serialized in the creation payload as exactly the string "2024-07-04",
and every other form field passes through to the payload unchanged. -/
theorem payload_serializes_date (values : FormValues)
    (h : values.datecaught = july4) :
    (buildPayload values).datecaught = "2024-07-04" ∧
    (buildPayload values).species = values.species ∧
    (buildPayload values).weight = values.weight ∧
    (buildPayload values).length = values.length ∧
    (buildPayload values).location = values.location ∧
    (buildPayload values).bait = values.bait ∧
    (buildPayload values).timeOfDay = values.timeOfDay ∧
    (buildPayload values).weather = values.weather ∧
    (buildPayload values).notes = values.notes := by
  refine ⟨?_, rfl, rfl, rfl, rfl, rfl, rfl, rfl, rfl⟩
  show formatYMD values.datecaught = "2024-07-04"
  rw [h]
  decide

/-- Witness for C8 at the concrete form values `v0`. -/
theorem payload_serializes_date_witness :
    (buildPayload v0).datecaught = "2024-07-04" ∧
    (buildPayload v0).species = v0.species :=
  ⟨(payload_serializes_date v0 rfl).1, (payload_serializes_date v0 rfl).2.1⟩

/-- Claim C9: a record with no `length` is compared by the length-column
sorter exactly as if its length were 0 (the comparator is a total
rational-valued function, so no comparison is NaN or crashes), and the
length cell renders the "N/A" placeholder for it. -/
theorem length_absent_spec (a b : CatchRecord) (h : a.length = none) :
    lengthSorter a b = lengthSorter { a with length := some 0 } b ∧
    lengthSorter b a = lengthSorter b { a with length := some 0 } ∧
    lengthOf a = 0 ∧
    renderLength a.length = "N/A" := by
  refine ⟨?_, ?_, ?_, ?_⟩ <;> simp [lengthSorter, lengthOf, renderLength, h]

/-- Witness for C9 at the concrete records `recNoLen` and `recA`. -/
theorem length_absent_witness :
    lengthSorter recNoLen recA = lengthSorter { recNoLen with length := some 0 } recA ∧
    lengthSorter recA recNoLen = lengthSorter recA { recNoLen with length := some 0 } ∧
    lengthOf recNoLen = 0 ∧
    renderLength recNoLen.length = "N/A" :=
  length_absent_spec recNoLen recA rfl
